import Mathlib

/-!
Verification development for the tunnel lifecycle manager in
`tunnel_manager.py` (stoyse/cloudflare-manager).

The Python module drives three external subsystems: the `cloudflared`
registry tool, the local per-tunnel config directory tree, and the
`systemctl` service supervisor.  We embed its `create_tunnel`,
`delete_tunnel` and status-display logic as pure Lean functions over an
explicit `World` state (directories, files, unit files, registry
identities) and an `Env` record describing the outcomes of the external
tools during one run.  Console interaction (prompts, confirmation) is
passed in as arguments; console prints that carry decision-relevant
payloads (the remediation commands of the permission-denied path) are
returned in the result value.  Every subprocess invocation that the code
attempts is recorded in an `Op` trace so that "step X was attempted" is
expressible.
-/

namespace TunnelManager

/-- Mirrors Python `sep in s` (substring containment) for a non-empty
separator `s0 :: stl`, over character lists. -/
def containsSeq (s0 : Char) (stl : List Char) : List Char → Bool
  | [] => false
  | c :: rest => (s0 :: stl).isPrefixOf (c :: rest) || containsSeq s0 stl rest

/-- Splits `l` at the leftmost occurrence of the separator `s0 :: stl`:
`some (before, after)` with the separator removed, or `none` when the
separator does not occur. -/
def splitFirst (s0 : Char) (stl : List Char) : List Char → Option (List Char × List Char)
  | [] => none
  | c :: rest =>
    if (s0 :: stl).isPrefixOf (c :: rest) then some ([], rest.drop stl.length)
    else
      match splitFirst s0 stl rest with
      | some (pre, post) => some (c :: pre, post)
      | none => none

/-- Python `l.split(sep)[0]`: everything before the first occurrence of
the separator (the whole string when the separator is absent). -/
def pySplitHead (s0 : Char) (stl : List Char) (l : List Char) : List Char :=
  match splitFirst s0 stl l with
  | none => l
  | some (pre, _) => pre

/-- Python `l.split(sep)[1]`: the chunk between the first and the second
occurrence of the separator (up to the end when there is no second
occurrence); `none` is the `IndexError` raised when the separator does
not occur at all. -/
def pySplitSecond (s0 : Char) (stl : List Char) (l : List Char) : Option (List Char) :=
  match splitFirst s0 stl l with
  | none => none
  | some (_, post) =>
    match splitFirst s0 stl post with
    | none => some post
    | some (pre2, _) => some pre2

/-- Lines 66-76 of `create_tunnel`: scan `result.stdout.splitlines()` for
the first line containing `".json"` and take
`line.split("to ")[1].split(". ")[0]`.  `stdout` is modelled as the list
of lines.  `.error ()` is the uncaught `IndexError` raised by `[1]` when
`"to "` does not occur in the line; `.ok []` is the case where
`creds_file_path` stays (or becomes) the empty string. -/
def extract_creds_loop (lines : List (List Char)) : Except Unit (List Char) :=
  match lines.find? (fun l => containsSeq '.' "json".data l) with
  | none => .ok []
  | some l =>
    match pySplitSecond 't' "o ".data l with
    | none => .error ()
    | some second => .ok (pySplitHead '.' " ".data second)

/-- Outcomes of the external tools during one run: which binaries exist,
which subprocess invocations exit zero, what the registry tool prints,
and ambient process facts (`os.getlogin()`, the current directory used by
`os.path.abspath`, the configured `TUNNELS_DIR`). -/
structure Env where
  tunnelsDir : String
  cwd : String
  loginUser : String
  cloudflared : Bool
  registryCreateExit : Bool
  registryStdout : List (List Char)
  unitWritable : Bool
  daemonReloadOk : Bool
  enableOk : Bool
  startOk : Bool
  stopExit : Bool
  disableExit : Bool
  rmUnitOk : Bool
  deleteDaemonReloadOk : Bool
  registryDeleteExit : Bool
  rmtreeOk : Bool
  deriving DecidableEq

/-- `os.path.join(TUNNELS_DIR, tunnel_name)`. -/
def tunnel_path (env : Env) (name : String) : String :=
  env.tunnelsDir ++ "/" ++ name

/-- `os.path.abspath` for the relative paths the script builds. -/
def abspath (env : Env) (p : String) : String :=
  env.cwd ++ "/" ++ p

/-- `os.path.join(tunnel_path, "config.yml")`. -/
def config_path (env : Env) (name : String) : String :=
  tunnel_path env name ++ "/config.yml"

/-- `os.path.join(tunnel_path, "start_tunnel.sh")`. -/
def script_path (env : Env) (name : String) : String :=
  tunnel_path env name ++ "/start_tunnel.sh"

/-- `service_name = f"cloudflare-tunnel-{tunnel_name}"`. -/
def service_name (name : String) : String :=
  "cloudflare-tunnel-" ++ name

/-- `service_file_path = f"/etc/systemd/system/{service_name}.service"`. -/
def service_file_path (name : String) : String :=
  "/etc/systemd/system/" ++ service_name name ++ ".service"

/-- The `config.yml` text written at lines 80-87, verbatim from the
f-string (leading newline, two ingress entries, trailing newline). -/
def config_content (name creds dns svc : String) : String :=
  "\ntunnel: " ++ name ++ "\ncredentials-file: " ++ creds ++
    "\ningress:\n  - hostname: " ++ dns ++ "\n    service: " ++ svc ++
    "\n  - service: http_status:404\n"

/-- The `start_tunnel.sh` text written at lines 94-96. -/
def script_content (env : Env) (name : String) : String :=
  "#!/bin/bash\ncloudflared tunnel --config " ++ abspath env (config_path env name) ++ " run\n"

/-- The systemd unit text built at lines 105-116. -/
def service_content (env : Env) (name : String) : String :=
  "[Unit]\nDescription=Cloudflare Tunnel for " ++ name ++
    "\nAfter=network.target\n\n[Service]\nExecStart=" ++ abspath env (script_path env name) ++
    "\nRestart=always\nUser=" ++ env.loginUser ++
    "\n\n[Install]\nWantedBy=multi-user.target\n"

/-- The three remediation commands printed at lines 133-135 of the
`except PermissionError` branch, in print order. -/
def remediation_cmds (name unitText : String) : List String :=
  ["sudo bash -c \x27cat > " ++ service_file_path name ++ "\x27 << EOF\n" ++ unitText ++ "EOF",
   "sudo systemctl daemon-reload",
   "sudo systemctl enable --now " ++ service_name name]

/-- Filesystem and remote state the script reads and mutates.  `dirs` is
the set of tunnel names whose directory exists under `TUNNELS_DIR`;
`configs` / `scripts` hold the files inside those directories (script
entries carry the executable bit set by `chmod 0o755`); `unitFiles` the
installed systemd unit files keyed by tunnel name; `registry` the
identities existing at the remote registry; `enabled` / `active` the
supervisor state of the units. -/
structure World where
  dirs : List String
  configs : List (String × String)
  scripts : List (String × String × Bool)
  unitFiles : List (String × String)
  registry : List String
  enabled : List String
  active : List String
  deriving DecidableEq

/-- One attempted external invocation (a `subprocess.run` or the
`shutil.rmtree` call), recorded in program order. -/
inductive Op where
  | registryCreate (name : String)
  | registryDelete (name : String)
  | sysStop (name : String)
  | sysDisable (name : String)
  | sysEnable (name : String)
  | sysStart (name : String)
  | daemonReload
  | rmUnit (name : String)
  | rmtree (name : String)
  deriving DecidableEq

/-- How one call of `create_tunnel` ends: which console report it gives
(lines 54, 75, 127, 130-136, 139, 142) or which exception escapes.
`indexError` is the uncaught `IndexError` of the credentials scrape;
`permissionDenied` carries the three remediation command prints. -/
inductive CreateResult where
  | alreadyExists
  | toolMissing
  | cmdFailed
  | indexError
  | credsNotFound
  | permissionDenied (cmds : List String)
  | success
  deriving DecidableEq

/-- Lines 45-143, `create_tunnel`, with the prompted inputs as arguments.
Returns the updated world, the trace of attempted external invocations,
and the outcome. -/
def create_tunnel (env : Env) (w : World) (name dns svc : String) :
    World × List Op × CreateResult :=
  if name ∈ w.dirs then (w, [], .alreadyExists)
  else
    let w1 := { w with dirs := name :: w.dirs }
    if env.cloudflared = false then (w1, [.registryCreate name], .toolMissing)
    else if env.registryCreateExit = false then (w1, [.registryCreate name], .cmdFailed)
    else
      let w2 := { w1 with registry := name :: w1.registry }
      match extract_creds_loop env.registryStdout with
      | .error _ => (w2, [.registryCreate name], .indexError)
      | .ok creds =>
        if creds = [] then (w2, [.registryCreate name], .credsNotFound)
        else
          let w3 := { w2 with
            configs := (name, config_content name creds.asString dns svc) :: w2.configs }
          let w4 := { w3 with scripts := (name, script_content env name, true) :: w3.scripts }
          if env.unitWritable = false then
            (w4, [.registryCreate name],
             .permissionDenied (remediation_cmds name (service_content env name)))
          else
            let w5 := { w4 with unitFiles := (name, service_content env name) :: w4.unitFiles }
            if env.daemonReloadOk = false then
              (w5, [.registryCreate name, .daemonReload], .cmdFailed)
            else if env.enableOk = false then
              (w5, [.registryCreate name, .daemonReload, .sysEnable name], .cmdFailed)
            else
              let w6 := { w5 with enabled := name :: w5.enabled }
              if env.startOk = false then
                (w6, [.registryCreate name, .daemonReload, .sysEnable name, .sysStart name],
                 .cmdFailed)
              else
                ({ w6 with active := name :: w6.active },
                 [.registryCreate name, .daemonReload, .sysEnable name, .sysStart name],
                 .success)

/-- How one call of `delete_tunnel` ends.  `cmdFailed` is the
`except subprocess.CalledProcessError` report (line 195), raised by the
`check=True` runs of `sudo rm` and `sudo systemctl daemon-reload`;
`unexpectedError` the generic `except Exception` report (line 198),
reached by a missing `cloudflared` binary (`FileNotFoundError`) or by
`shutil.rmtree` raising. -/
inductive DeleteResult where
  | notFound
  | cancelled
  | cmdFailed
  | unexpectedError
  | success
  deriving DecidableEq

/-- Lines 174-193 of `delete_tunnel`: daemon reload (`check=True`),
`cloudflared tunnel delete` (exit code inspected, never raised, but a
missing binary raises `FileNotFoundError` into the generic handler),
then `shutil.rmtree`. -/
def delete_after_rm (env : Env) (w : World) (tr : List Op) (name : String) :
    World × List Op × DeleteResult :=
  if env.deleteDaemonReloadOk = false then (w, tr ++ [.daemonReload], .cmdFailed)
  else if env.cloudflared = false then
    (w, tr ++ [.daemonReload, .registryDelete name], .unexpectedError)
  else
    let w2 := if env.registryDeleteExit then
        { w with registry := w.registry.filter (· ≠ name) } else w
    if env.rmtreeOk = false then
      (w2, tr ++ [.daemonReload, .registryDelete name, .rmtree name], .unexpectedError)
    else
      ({ w2 with dirs := w2.dirs.filter (· ≠ name),
                 configs := w2.configs.filter (fun p => p.1 ≠ name),
                 scripts := w2.scripts.filter (fun p => p.1 ≠ name) },
       tr ++ [.daemonReload, .registryDelete name, .rmtree name], .success)

/-- Lines 146-199, `delete_tunnel`, with the prompted name and the
`Confirm.ask` answer as arguments.  `systemctl stop`/`disable` run with
`check=False` (their exit codes only gate the supervisor-state effect);
the unit file is removed by `sudo rm` with `check=True` only when it
exists. -/
def delete_tunnel (env : Env) (w : World) (name : String) (confirm : Bool) :
    World × List Op × DeleteResult :=
  if name ∉ w.dirs then (w, [], .notFound)
  else if confirm = false then (w, [], .cancelled)
  else
    let w1 := if env.stopExit then { w with active := w.active.filter (· ≠ name) } else w
    let w2 := if env.disableExit then { w1 with enabled := w1.enabled.filter (· ≠ name) } else w1
    let t0 := [Op.sysStop name, Op.sysDisable name]
    if w2.unitFiles.any (fun p => p.1 = name) then
      if env.rmUnitOk = false then (w2, t0 ++ [.rmUnit name], .cmdFailed)
      else
        delete_after_rm env { w2 with unitFiles := w2.unitFiles.filter (fun p => p.1 ≠ name) }
          (t0 ++ [.rmUnit name]) name
    else
      delete_after_rm env w2 t0 name

/-- What the status block at lines 230-241 of `display_tunnel_info`
prints for the selected tunnel's service. -/
inductive StatusDisplay where
  | activeShown
  | inactiveShown
  | couldNotCheck
  deriving DecidableEq

/-- The whitespace characters Python `str.strip()` removes (the ASCII
ones; the tool output at hand is ASCII). -/
def pyWhitespace (c : Char) : Bool :=
  c == ' ' || c == '\t' || c == '\n' || c == '\r' || c == '\x0b' || c == '\x0c'

/-- Python `s.strip()` over the characters of `s`. -/
def pyStrip (l : List Char) : List Char :=
  ((l.dropWhile pyWhitespace).reverse.dropWhile pyWhitespace).reverse

/-- Lines 230-241: run `systemctl is-active`; a missing `systemctl`
binary raises `FileNotFoundError`, reported as a distinct could-not-check
message; otherwise `status_check.stdout.strip()` is compared with
`"active"`. -/
def display_service_status (systemctlPresent : Bool) (stdout : String) : StatusDisplay :=
  if systemctlPresent = false then .couldNotCheck
  else if pyStrip stdout.data = "active".data then .activeShown
  else .inactiveShown

/-- Splits a character list into its newline-separated lines (the lines
of the written `config.yml`, used to read its ingress list back). -/
def linesOf : List Char → List (List Char)
  | [] => [[]]
  | c :: rest =>
    if c = '\n' then [] :: linesOf rest
    else
      match linesOf rest with
      | l :: ls => (c :: l) :: ls
      | [] => [[c]]

/-- One ingress rule of the routing config: an optional exact hostname
and the service it routes to. -/
structure IngressRule where
  hostname : Option (List Char)
  service : List Char
  deriving DecidableEq

/-- Reads the ordered ingress rules out of the lines of a routing
config: a `  - hostname: h` line followed by a `    service: s` line is
an exact-hostname rule, a `  - service: s` line a hostname-less
(catch-all) rule. -/
def parseIngress : List (List Char) → List IngressRule
  | [] => []
  | [l] =>
    if "  - service: ".data.isPrefixOf l then
      [⟨none, l.drop "  - service: ".length⟩]
    else []
  | l :: r :: rest =>
    if "  - hostname: ".data.isPrefixOf l && "    service: ".data.isPrefixOf r then
      ⟨some (l.drop "  - hostname: ".length), r.drop "    service: ".length⟩ :: parseIngress rest
    else if "  - service: ".data.isPrefixOf l then
      ⟨none, l.drop "  - service: ".length⟩ :: parseIngress (r :: rest)
    else
      parseIngress (r :: rest)

/-! ### Sample environments and worlds for concrete runs -/

/-- An environment in which every external tool is present and succeeds,
and the registry prints the usual credentials line. -/
def envAllOk : Env :=
  { tunnelsDir := "tunnels", cwd := "/home/op", loginUser := "op",
    cloudflared := true, registryCreateExit := true,
    registryStdout :=
      ["Created tunnel demo with id 0192".data,
       "Tunnel credentials written to /home/op/.cloudflared/0192.json. Keep this file secret".data],
    unitWritable := true, daemonReloadOk := true, enableOk := true, startOk := true,
    stopExit := true, disableExit := true, rmUnitOk := true, deleteDaemonReloadOk := true,
    registryDeleteExit := true, rmtreeOk := true }

/-- `envAllOk` with the registry binary missing. -/
def envNoCf : Env := { envAllOk with cloudflared := false }

/-- `envAllOk` with registry output that names no credentials file. -/
def envNoCreds : Env := { envAllOk with registryStdout := ["no credentials line here".data] }

/-- `envAllOk` with the unit-file write refused (`PermissionError`). -/
def envPermDenied : Env := { envAllOk with unitWritable := false }

/-- `envAllOk` with `shutil.rmtree` raising. -/
def envRmtreeFails : Env := { envAllOk with rmtreeOk := false }

/-- `envAllOk` with `sudo rm` of the unit file exiting non-zero. -/
def envRmUnitFails : Env := { envAllOk with rmUnitOk := false }

/-- `envAllOk` with every soft-tolerated step failing: `systemctl stop`
and `disable` exit non-zero and `cloudflared tunnel delete` exits
non-zero. -/
def envSoftFails : Env :=
  { envAllOk with stopExit := false, disableExit := false, registryDeleteExit := false }

/-- `envAllOk` with registry output whose `.json` line has an empty
fragment between `"to "` and the next `". "`. -/
def envDotToBlank : Env :=
  { envAllOk with registryStdout := ["written to . file demo.json".data] }

/-- `envAllOk` with registry output whose `.json` line lacks `"to "`. -/
def envNoTo : Env :=
  { envAllOk with registryStdout := ["file demo.json created".data] }

/-- The empty store: no tunnels, no units, no registry identities. -/
def emptyWorld : World := ⟨[], [], [], [], [], [], []⟩

/-- A world where only the directory of tunnel `demo` exists. -/
def worldWithDemo : World := { emptyWorld with dirs := ["demo"] }

/-- A world where tunnel `demo` has a directory, an installed unit file
and a registry identity. -/
def worldDemoUnit : World :=
  { emptyWorld with dirs := ["demo"], unitFiles := [("demo", "unit text")],
                    registry := ["demo"] }

/-- A fully provisioned tunnel `demo`: directory, unit file, registry
identity, enabled and active. -/
def worldDemoFull : World :=
  { dirs := ["demo"], configs := [("demo", "cfg")], scripts := [("demo", "scr", true)],
    unitFiles := [("demo", "unit")], registry := ["demo"],
    enabled := ["demo"], active := ["demo"] }

/-! ### C2 -/

/-- C2: `Create` on a name whose directory already exists reports
`AlreadyExists` and performs no action at all: the world is unchanged (no
directory creation, no config/script write, no unit install) and no
external tool is invoked (empty trace, so no registry `createIdentity`
call). -/
theorem c2_create_already_exists (env : Env) (w : World) (name dns svc : String)
    (h : name ∈ w.dirs) :
    create_tunnel env w name dns svc = (w, [], .alreadyExists) := by
  simp [create_tunnel, h]

/-- Witness for C2 at the concrete world whose only tunnel is `demo`. -/
theorem c2_create_already_exists_witness :
    "demo" ∈ worldWithDemo.dirs ∧
    create_tunnel envAllOk worldWithDemo "demo" "app.example.com" "http://localhost:8000" =
      (worldWithDemo, [], .alreadyExists) :=
  ⟨by decide, c2_create_already_exists _ _ _ _ _ (by decide)⟩

/-! ### C3 -/

/-- C3: when `Create` fails at the registry step — the `cloudflared`
binary is missing (`FileNotFoundError`), or the credentials scrape comes
back empty — the operation reports the error and stops (its trace is the
single registry invocation, configs/scripts/unit files untouched), the
reserved directory is left in place, and a second `Create` for the same
name reports `AlreadyExists`. -/
theorem c3_registry_failure_no_rollback (env env2 : Env) (w : World)
    (name dns svc dns2 svc2 : String) (hn : name ∉ w.dirs) :
    (env.cloudflared = false →
      create_tunnel env w name dns svc =
        ({ w with dirs := name :: w.dirs }, [.registryCreate name], .toolMissing) ∧
      (create_tunnel env2 (create_tunnel env w name dns svc).1 name dns2 svc2).2.2 =
        .alreadyExists) ∧
    (env.cloudflared = true → env.registryCreateExit = true →
      extract_creds_loop env.registryStdout = .ok [] →
      create_tunnel env w name dns svc =
        ({ w with dirs := name :: w.dirs, registry := name :: w.registry },
         [.registryCreate name], .credsNotFound) ∧
      (create_tunnel env2 (create_tunnel env w name dns svc).1 name dns2 svc2).2.2 =
        .alreadyExists) := by
  constructor
  · intro hcf
    have h1 : create_tunnel env w name dns svc =
        ({ w with dirs := name :: w.dirs }, [.registryCreate name], .toolMissing) := by
      simp [create_tunnel, hn, hcf]
    exact ⟨h1, by rw [h1]; simp [create_tunnel]⟩
  · intro hcf hexit hext
    have h1 : create_tunnel env w name dns svc =
        ({ w with dirs := name :: w.dirs, registry := name :: w.registry },
         [.registryCreate name], .credsNotFound) := by
      simp [create_tunnel, hn, hcf, hexit, hext]
    exact ⟨h1, by rw [h1]; simp [create_tunnel]⟩

/-- Witness for C3: a missing registry binary, and an output with no
usable credentials line, both on the empty world. -/
theorem c3_registry_failure_no_rollback_witness :
    ("demo" ∉ emptyWorld.dirs) ∧
    (create_tunnel envNoCf emptyWorld "demo" "d" "s" =
      ({ emptyWorld with dirs := ["demo"] }, [.registryCreate "demo"], .toolMissing) ∧
     (create_tunnel envAllOk
        (create_tunnel envNoCf emptyWorld "demo" "d" "s").1
        "demo" "d" "s").2.2 = .alreadyExists) ∧
    (create_tunnel envNoCreds emptyWorld "demo" "d" "s" =
      ({ emptyWorld with dirs := ["demo"], registry := ["demo"] },
       [.registryCreate "demo"], .credsNotFound) ∧
     (create_tunnel envAllOk
        (create_tunnel envNoCreds emptyWorld "demo" "d" "s").1
        "demo" "d" "s").2.2 = .alreadyExists) :=
  ⟨by decide,
   (c3_registry_failure_no_rollback envNoCf envAllOk _ _ _ _ _ _ (by decide)).1 (by decide),
   (c3_registry_failure_no_rollback envNoCreds envAllOk _ _ _ _ _ _ (by decide)).2
     (by decide) (by decide) (by rfl)⟩

/-! ### C4 -/

/-- C4: if writing the systemd unit raises `PermissionError`, `Create`
ends with the degraded-success report: the routing config and the
executable launch script are on disk in the tunnel directory, no unit
file is installed (the `unitFiles` component keeps its old value), and
the output carries exactly three remediation command lines, the first of
which embeds the literal unit-file text. -/
theorem c4_permission_denied_degraded_success (env : Env) (w : World)
    (name dns svc : String) (creds : List Char)
    (hn : name ∉ w.dirs) (hcf : env.cloudflared = true)
    (hexit : env.registryCreateExit = true)
    (hext : extract_creds_loop env.registryStdout = .ok creds) (hcreds : creds ≠ [])
    (hperm : env.unitWritable = false) :
    create_tunnel env w name dns svc =
      ({ w with dirs := name :: w.dirs, registry := name :: w.registry,
                configs := (name, config_content name creds.asString dns svc) :: w.configs,
                scripts := (name, script_content env name, true) :: w.scripts },
       [.registryCreate name],
       .permissionDenied
         ["sudo bash -c \x27cat > " ++ service_file_path name ++ "\x27 << EOF\n" ++
            service_content env name ++ "EOF",
          "sudo systemctl daemon-reload",
          "sudo systemctl enable --now " ++ service_name name]) ∧
    (remediation_cmds name (service_content env name)).length = 3 := by
  refine ⟨?_, rfl⟩
  simp [create_tunnel, hn, hcf, hexit, hext, hcreds, hperm, remediation_cmds]

/-- Witness for C4: permission denied on the unit write, all earlier
steps succeeding, on the empty world. -/
theorem c4_permission_denied_degraded_success_witness :
    extract_creds_loop envPermDenied.registryStdout =
      .ok "/home/op/.cloudflared/0192.json".data ∧
    create_tunnel envPermDenied emptyWorld
        "demo" "app.example.com" "http://localhost:8000" =
      ({ emptyWorld with
           dirs := ["demo"],
           registry := ["demo"],
           configs := [("demo",
             config_content "demo" "/home/op/.cloudflared/0192.json"
               "app.example.com" "http://localhost:8000")],
           scripts := [("demo", script_content envPermDenied "demo", true)] },
       [.registryCreate "demo"],
       .permissionDenied
         ["sudo bash -c \x27cat > " ++ service_file_path "demo" ++ "\x27 << EOF\n" ++
            service_content envPermDenied "demo" ++ "EOF",
          "sudo systemctl daemon-reload",
          "sudo systemctl enable --now " ++ service_name "demo"]) :=
  ⟨by rfl,
   (c4_permission_denied_degraded_success envPermDenied _ _ _ _ _ (by decide) (by decide)
      (by decide) (by rfl) (by decide) (by decide)).1⟩

/-! ### C5 -/

/-- C5: for a fresh name and all external tools succeeding, `Create`
succeeds and an immediate `Delete` (confirmed) succeeds and returns the
system to `ABSENT`: the tunnel directory, the unit file and the registry
identity are all gone, and a subsequent `Create` for the same name
succeeds again. -/
theorem c5_create_delete_roundtrip (env : Env) (w : World)
    (name dns svc dns2 svc2 : String) (creds : List Char)
    (hn : name ∉ w.dirs)
    (hcf : env.cloudflared = true) (hexit : env.registryCreateExit = true)
    (hext : extract_creds_loop env.registryStdout = .ok creds) (hcreds : creds ≠ [])
    (hunit : env.unitWritable = true) (hdrel : env.daemonReloadOk = true)
    (hen : env.enableOk = true) (hst : env.startOk = true)
    (hsp : env.stopExit = true) (hdis : env.disableExit = true)
    (hrm : env.rmUnitOk = true) (hdrel2 : env.deleteDaemonReloadOk = true)
    (hrd : env.registryDeleteExit = true) (hrt : env.rmtreeOk = true) :
    (create_tunnel env w name dns svc).2.2 = .success ∧
    (delete_tunnel env (create_tunnel env w name dns svc).1 name true).2.2 = .success ∧
    name ∉ (delete_tunnel env (create_tunnel env w name dns svc).1 name true).1.dirs ∧
    (delete_tunnel env (create_tunnel env w name dns svc).1 name true).1.unitFiles.all
      (fun p => p.1 ≠ name) = true ∧
    name ∉ (delete_tunnel env (create_tunnel env w name dns svc).1 name true).1.registry ∧
    (create_tunnel env (delete_tunnel env (create_tunnel env w name dns svc).1 name true).1
      name dns2 svc2).2.2 = .success := by
  simp [create_tunnel, delete_tunnel, delete_after_rm, hn, hcf, hexit, hext, hcreds,
    hunit, hdrel, hen, hst, hsp, hdis, hrm, hdrel2, hrd, hrt,
    List.mem_filter, List.all_eq_true]

/-- Witness for C5: the end-to-end scenario on the empty store with all
tools succeeding. -/
theorem c5_create_delete_roundtrip_witness :
    (create_tunnel envAllOk emptyWorld "demo" "demo.example.com" "http://localhost:3000").2.2 =
      .success ∧
    (delete_tunnel envAllOk
      (create_tunnel envAllOk emptyWorld "demo" "demo.example.com" "http://localhost:3000").1
      "demo" true).2.2 = .success ∧
    "demo" ∉ (delete_tunnel envAllOk
      (create_tunnel envAllOk emptyWorld "demo" "demo.example.com" "http://localhost:3000").1
      "demo" true).1.dirs ∧
    (delete_tunnel envAllOk
      (create_tunnel envAllOk emptyWorld "demo" "demo.example.com" "http://localhost:3000").1
      "demo" true).1.unitFiles.all (fun p => p.1 ≠ "demo") = true ∧
    "demo" ∉ (delete_tunnel envAllOk
      (create_tunnel envAllOk emptyWorld "demo" "demo.example.com" "http://localhost:3000").1
      "demo" true).1.registry ∧
    (create_tunnel envAllOk
      (delete_tunnel envAllOk
        (create_tunnel envAllOk emptyWorld "demo" "demo.example.com" "http://localhost:3000").1
        "demo" true).1
      "demo" "demo.example.com" "http://localhost:3000").2.2 = .success :=
  c5_create_delete_roundtrip envAllOk emptyWorld "demo" "demo.example.com"
    "http://localhost:3000" "demo.example.com" "http://localhost:3000"
    "/home/op/.cloudflared/0192.json".data
    (by decide) (by decide) (by decide) (by rfl) (by decide) (by decide) (by decide)
    (by decide) (by decide) (by decide) (by decide) (by decide) (by decide)
    (by decide) (by decide)

/-! ### C7 -/

/-- If the tail of `delete_tunnel` reports success, the tunnel directory
is gone from the resulting world. -/
lemma delete_after_rm_success_dirs (env : Env) (w : World) (tr : List Op) (name : String)
    (h : (delete_after_rm env w tr name).2.2 = .success) :
    name ∉ (delete_after_rm env w tr name).1.dirs := by
  simp only [delete_after_rm] at h ⊢
  split_ifs at h ⊢ <;> simp_all [List.mem_filter]

/-- If `delete_tunnel` reports success, the tunnel directory is gone
from the resulting world. -/
lemma delete_success_dirs (env : Env) (w : World) (name : String) (c : Bool)
    (h : (delete_tunnel env w name c).2.2 = .success) :
    name ∉ (delete_tunnel env w name c).1.dirs := by
  simp only [delete_tunnel] at h ⊢
  split_ifs at h ⊢ <;>
    first
      | exact delete_after_rm_success_dirs _ _ _ _ h
      | simp_all

/-- `delete_tunnel` on a name whose directory is absent returns
`NotFound` with the world unchanged and no external invocation. -/
lemma delete_tunnel_notFound (env : Env) (w : World) (name : String) (c : Bool)
    (h : name ∉ w.dirs) : delete_tunnel env w name c = (w, [], .notFound) := by
  simp [delete_tunnel, h]

/-- C7 (amended): `Delete` on a name whose directory is absent reports
`NotFound` with no side effects (unchanged world, empty trace); hence a
second `Delete` after a first one that reported success finds the
directory gone and reports `NotFound`, never a hard failure.  (The
original unconditional "never a hard failure on the second call" fails
when the first call itself hard-fails and leaves the directory, see the
counterexample.) -/
theorem c7_delete_idempotent_amended (env env2 : Env) (w : World) (name : String)
    (c c2 : Bool) :
    (name ∉ w.dirs → delete_tunnel env w name c = (w, [], .notFound)) ∧
    ((delete_tunnel env w name true).2.2 = .success →
      delete_tunnel env2 (delete_tunnel env w name true).1 name c2 =
        ((delete_tunnel env w name true).1, [], .notFound)) := by
  constructor
  · intro h
    exact delete_tunnel_notFound env w name c h
  · intro h
    exact delete_tunnel_notFound env2 _ name c2 (delete_success_dirs env w name true h)

/-- Counterexample for C7 as stated: when `shutil.rmtree` raises, the
first `Delete` hard-fails (generic `except Exception` report) and leaves
the directory, and a second `Delete` in succession hard-fails again — so
the second call can produce a hard failure. -/
theorem c7_counterexample :
    (delete_tunnel envRmtreeFails worldWithDemo "demo" true).2.2 = .unexpectedError ∧
    (delete_tunnel envRmtreeFails
      (delete_tunnel envRmtreeFails worldWithDemo "demo" true).1
      "demo" true).2.2 = .unexpectedError := by decide

/-- Witness for C7 (amended): both parts at concrete inputs — `Delete`
on the empty store reports `NotFound` unchanged, and after a successful
`Delete` of a fully provisioned tunnel the second call reports
`NotFound`. -/
theorem c7_delete_idempotent_witness :
    ("demo" ∉ emptyWorld.dirs ∧
      delete_tunnel envAllOk emptyWorld "demo" true = (emptyWorld, [], .notFound)) ∧
    ((delete_tunnel envAllOk worldDemoFull "demo" true).2.2 = .success ∧
      delete_tunnel envAllOk (delete_tunnel envAllOk worldDemoFull "demo" true).1 "demo" true =
        ((delete_tunnel envAllOk worldDemoFull "demo" true).1, [], .notFound)) :=
  ⟨⟨by decide,
    (c7_delete_idempotent_amended envAllOk envAllOk emptyWorld "demo" true true).1 (by decide)⟩,
   ⟨by decide,
    (c7_delete_idempotent_amended envAllOk envAllOk worldDemoFull "demo" true true).2
      (by decide)⟩⟩

/-! ### C1 -/

/-- C1 (amended): for a confirmed `Delete` of an existing tunnel,
soft-failures are tolerated only where the code runs without `check=True`:
the stop/disable exit codes and the registry-delete exit code are left
unconstrained here, yet the trace always reaches the registry deletion
and the directory removal, and success is reported iff `rmtree`
succeeds — but only under the hypotheses that the unit-file removal and
the daemon reload succeed and the registry binary exists; an exception in
any of those aborts the remaining steps (see the counterexample). -/
theorem c1_delete_soft_failure_tolerance (env : Env) (w : World) (name : String)
    (hn : name ∈ w.dirs) (hrm : env.rmUnitOk = true)
    (hdrel : env.deleteDaemonReloadOk = true) (hcf : env.cloudflared = true) :
    Op.sysStop name ∈ (delete_tunnel env w name true).2.1 ∧
    Op.sysDisable name ∈ (delete_tunnel env w name true).2.1 ∧
    Op.daemonReload ∈ (delete_tunnel env w name true).2.1 ∧
    Op.registryDelete name ∈ (delete_tunnel env w name true).2.1 ∧
    Op.rmtree name ∈ (delete_tunnel env w name true).2.1 ∧
    ((delete_tunnel env w name true).2.2 = .success ↔ env.rmtreeOk = true) ∧
    (env.rmtreeOk = true → name ∉ (delete_tunnel env w name true).1.dirs) ∧
    (env.rmtreeOk = false → name ∈ (delete_tunnel env w name true).1.dirs) := by
  cases hsp : env.stopExit <;> cases hdis : env.disableExit <;>
    cases hrd : env.registryDeleteExit <;> cases hrt : env.rmtreeOk <;>
      by_cases hu : w.unitFiles.any (fun p => p.1 = name) = true <;>
        simp_all [delete_tunnel, delete_after_rm, List.mem_filter]

/-- Counterexample for C1 as stated: a failing `sudo rm` of the unit
file (run with `check=True`) raises `CalledProcessError`, so the registry
deletion and the directory removal are never attempted and no success is
reported — even though `rmtree` itself would not have raised. -/
theorem c1_counterexample :
    (delete_tunnel envRmUnitFails worldDemoUnit "demo" true).2.2 = .cmdFailed ∧
    Op.registryDelete "demo" ∉ (delete_tunnel envRmUnitFails worldDemoUnit "demo" true).2.1 ∧
    Op.rmtree "demo" ∉ (delete_tunnel envRmUnitFails worldDemoUnit "demo" true).2.1 ∧
    "demo" ∈ (delete_tunnel envRmUnitFails worldDemoUnit "demo" true).1.dirs ∧
    "demo" ∈ (delete_tunnel envRmUnitFails worldDemoUnit "demo" true).1.registry ∧
    envRmUnitFails.rmtreeOk = true := by decide

/-- Witness for C1 (amended): with stop, disable and the registry delete
all soft-failing, every later step is still attempted and the run
succeeds. -/
theorem c1_delete_soft_failure_tolerance_witness :
    ("demo" ∈ worldDemoUnit.dirs) ∧
    Op.registryDelete "demo" ∈ (delete_tunnel envSoftFails worldDemoUnit "demo" true).2.1 ∧
    Op.rmtree "demo" ∈ (delete_tunnel envSoftFails worldDemoUnit "demo" true).2.1 ∧
    ((delete_tunnel envSoftFails worldDemoUnit "demo" true).2.2 = .success ↔
      envSoftFails.rmtreeOk = true) :=
  ⟨by decide,
   (c1_delete_soft_failure_tolerance envSoftFails worldDemoUnit "demo"
      (by decide) (by decide) (by decide) (by decide)).2.2.2.1,
   (c1_delete_soft_failure_tolerance envSoftFails worldDemoUnit "demo"
      (by decide) (by decide) (by decide) (by decide)).2.2.2.2.1,
   (c1_delete_soft_failure_tolerance envSoftFails worldDemoUnit "demo"
      (by decide) (by decide) (by decide) (by decide)).2.2.2.2.2.1⟩

/-! ### C8 -/

/-- C8: when the `systemctl` binary cannot be located
(`FileNotFoundError`), the status block prints the distinct
could-not-check report, never the inactive report, whatever the would-be
stdout is. -/
theorem c8_supervisor_missing_unknown (stdout : String) :
    display_service_status false stdout = .couldNotCheck ∧
    display_service_status false stdout ≠ .inactiveShown := by
  constructor <;> simp [display_service_status]

/-! ### C10 -/

/-- C10 (amended): with the supervisor tool present, the status block
reports inactive for every `is-active` stdout whose whitespace-stripped
form differs from `"active"` — the comparison at line 235-236 is against
`status_check.stdout.strip()`, not the raw output (see the
counterexample with `"active\n"`). -/
theorem c10_inactive_unless_stripped_active (stdout : String)
    (h : pyStrip stdout.data ≠ "active".data) :
    display_service_status true stdout = .inactiveShown := by
  simp [display_service_status, h]

/-- Counterexample for C10 as stated: the raw output `"active\n"` (what
`systemctl is-active` actually writes) differs from the exact string
`"active"` yet is displayed as active, because the code strips it
first. -/
theorem c10_counterexample :
    display_service_status true "active\n" = .activeShown ∧
    "active\n" ≠ "active" := by decide

/-- Witness for C10 (amended) at the outputs `unknown`, `failed` and
`activating`. -/
theorem c10_inactive_unless_stripped_active_witness :
    (pyStrip "unknown\n".data ≠ "active".data ∧
      display_service_status true "unknown\n" = .inactiveShown) ∧
    (pyStrip "failed\n".data ≠ "active".data ∧
      display_service_status true "failed\n" = .inactiveShown) ∧
    (pyStrip "activating\n".data ≠ "active".data ∧
      display_service_status true "activating\n" = .inactiveShown) :=
  ⟨⟨by decide, c10_inactive_unless_stripped_active "unknown\n" (by decide)⟩,
   ⟨by decide, c10_inactive_unless_stripped_active "failed\n" (by decide)⟩,
   ⟨by decide, c10_inactive_unless_stripped_active "activating\n" (by decide)⟩⟩

/-! ### C9 -/

/-- When the separator does not occur in `l`, `splitFirst` finds
nothing. -/
lemma splitFirst_eq_none (s0 : Char) (stl : List Char) :
    ∀ l : List Char, containsSeq s0 stl l = false → splitFirst s0 stl l = none := by
  intro l
  induction l with
  | nil => intro _; rfl
  | cons c rest ih =>
    intro h
    unfold containsSeq at h
    rw [Bool.or_eq_false_iff] at h
    unfold splitFirst
    rw [if_neg (by simp [h.1]), ih h.2]

/-- When the separator occurs in `l`, `splitFirst` finds a split. -/
lemma splitFirst_isSome (s0 : Char) (stl : List Char) :
    ∀ l : List Char, containsSeq s0 stl l = true → (splitFirst s0 stl l).isSome = true := by
  intro l
  induction l with
  | nil => intro h; simp [containsSeq] at h
  | cons c rest ih =>
    intro h
    unfold splitFirst
    by_cases hp : (s0 :: stl).isPrefixOf (c :: rest) = true
    · rw [if_pos hp]; rfl
    · rw [if_neg hp]
      unfold containsSeq at h
      rw [Bool.or_eq_true] at h
      rcases h with h | h
      · exact absurd h hp
      · have hrest := ih h
        cases hsf : splitFirst s0 stl rest with
        | none => rw [hsf] at hrest; simp at hrest
        | some pr => rfl

/-- The value `line.split("to ")[1].split(". ")[0]` scraped from a line
that contains `"to "` (empty when nothing stands between the first
`"to "` and the next `". "`). -/
def credsFragment (l : List Char) : List Char :=
  pySplitHead '.' " ".data ((pySplitSecond 't' "o ".data l).getD [])

/-- On a found `.json` line containing `"to "`, the scrape returns the
fragment (no `IndexError`). -/
lemma extract_creds_ok_of_contains (lines : List (List Char)) (l : List Char)
    (hfind : lines.find? (fun x => containsSeq '.' "json".data x) = some l)
    (hto : containsSeq 't' "o ".data l = true) :
    extract_creds_loop lines = .ok (credsFragment l) := by
  have hs := splitFirst_isSome 't' "o ".data l hto
  unfold extract_creds_loop credsFragment pySplitSecond
  rw [hfind]
  cases hsf : splitFirst 't' "o ".data l with
  | none => rw [hsf] at hs; simp at hs
  | some pr => cases h2 : splitFirst 't' "o ".data pr.2 <;> simp [hsf, h2]

/-- C9 (amended): with the registry call succeeding, the credentials
scrape ends in the recoverable could-not-find report when no stdout
line contains `".json"`, and ALSO when the first such line contains
`"to "` but the fragment between the first `"to "` and the next `". "`
is empty (see the counterexample); when the first `".json"` line lacks
`"to "`, the scrape instead raises an uncaught `IndexError` and the
create flow aborts with it. -/
theorem c9_creds_scrape_amended (env : Env) (w : World) (name dns svc : String)
    (l : List Char)
    (hn : name ∉ w.dirs) (hcf : env.cloudflared = true)
    (hexit : env.registryCreateExit = true) :
    (env.registryStdout.find? (fun x => containsSeq '.' "json".data x) = none →
      (create_tunnel env w name dns svc).2.2 = .credsNotFound) ∧
    (env.registryStdout.find? (fun x => containsSeq '.' "json".data x) = some l →
      containsSeq 't' "o ".data l = false →
      (create_tunnel env w name dns svc).2.2 = .indexError) ∧
    (env.registryStdout.find? (fun x => containsSeq '.' "json".data x) = some l →
      containsSeq 't' "o ".data l = true →
      ((create_tunnel env w name dns svc).2.2 = .credsNotFound ↔ credsFragment l = [])) := by
  refine ⟨fun hfind => ?_, fun hfind hto => ?_, fun hfind hto => ?_⟩
  · have hext : extract_creds_loop env.registryStdout = .ok [] := by
      unfold extract_creds_loop; rw [hfind]
    simp [create_tunnel, hn, hcf, hexit, hext]
  · have hext : extract_creds_loop env.registryStdout = .error () := by
      unfold extract_creds_loop pySplitSecond
      rw [hfind]
      simp [splitFirst_eq_none 't' "o ".data l hto]
    simp [create_tunnel, hn, hcf, hexit, hext]
  · have hext := extract_creds_ok_of_contains env.registryStdout l hfind hto
    by_cases hfrag : credsFragment l = []
    · simp [create_tunnel, hn, hcf, hexit, hext, hfrag]
    · simp only [create_tunnel, hn, hcf, hexit, hext]
      simp only [hfrag, iff_false]
      simp [hn, hcf, hexit]
      split_ifs <;> simp

/-- Counterexample for C9 as stated: the registry line
`written to . file demo.json` contains `".json"`, yet the scrape yields
the empty string (nothing stands between `"to "` and the next `". "`)
and `create_tunnel` ends in the recoverable could-not-find report — so
that report is not reached only when no line contains `".json"`. -/
theorem c9_counterexample :
    (create_tunnel envDotToBlank emptyWorld "demo" "app.example.com"
      "http://localhost:8000").2.2 = .credsNotFound ∧
    envDotToBlank.registryStdout.any (fun x => containsSeq '.' "json".data x) = true := by
  decide

/-- Witness for C9 (amended): the `IndexError` branch on a `.json` line
without `"to "`, and the empty-fragment branch on the counterexample
line. -/
theorem c9_creds_scrape_amended_witness :
    (envNoTo.registryStdout.find? (fun x => containsSeq '.' "json".data x) =
        some "file demo.json created".data ∧
      containsSeq 't' "o ".data "file demo.json created".data = false ∧
      (create_tunnel envNoTo emptyWorld "demo" "d" "s").2.2 = .indexError) ∧
    (envDotToBlank.registryStdout.find? (fun x => containsSeq '.' "json".data x) =
        some "written to . file demo.json".data ∧
      containsSeq 't' "o ".data "written to . file demo.json".data = true ∧
      credsFragment "written to . file demo.json".data = [] ∧
      (create_tunnel envDotToBlank emptyWorld "demo" "d" "s").2.2 = .credsNotFound) :=
  ⟨⟨by rfl, by rfl,
    (c9_creds_scrape_amended envNoTo emptyWorld "demo" "d" "s"
        "file demo.json created".data (by decide) (by decide) (by decide)).2.1
      (by rfl) (by rfl)⟩,
   ⟨by rfl, by rfl, by rfl,
    ((c9_creds_scrape_amended envDotToBlank emptyWorld "demo" "d" "s"
        "written to . file demo.json".data (by decide) (by decide) (by decide)).2.2
      (by rfl) (by rfl)).mpr (by rfl)⟩⟩

/-! ### C6 -/

/-- A list is a Boolean prefix of itself followed by anything. -/
lemma isPrefixOf_append_self (xs ys : List Char) : xs.isPrefixOf (xs ++ ys) = true := by
  induction xs with
  | nil => simp
  | cons a as ih => simp [List.isPrefixOf_cons₂_self, ih]

/-- A mismatch within the first `zs.length` characters rules out
prefixhood of any extension of `zs`. -/
lemma isPrefixOf_append_false (xs : List Char) :
    ∀ (zs v : List Char), (xs.take zs.length).isPrefixOf zs = false →
      xs.isPrefixOf (zs ++ v) = false := by
  induction xs with
  | nil => intro zs v h; simp at h
  | cons a as ih =>
    intro zs v h
    cases zs with
    | nil => simp at h
    | cons b bs =>
      simp only [List.length_cons, List.take_succ_cons, List.isPrefixOf_cons₂,
        Bool.and_eq_false_iff] at h
      rcases h with h | h
      · simp [List.isPrefixOf_cons₂, h]
      · simp only [List.cons_append, List.isPrefixOf_cons₂, Bool.and_eq_false_iff]
        exact Or.inr (ih bs v h)

/-- `linesOf` of a newline-free list is that single line. -/
lemma linesOf_no_newline : ∀ xs : List Char, ('\n' : Char) ∉ xs → linesOf xs = [xs] := by
  intro xs
  induction xs with
  | nil => intro _; rfl
  | cons c rest ih =>
    intro h
    have hc : ¬(c = '\n') := fun e => h (e ▸ List.mem_cons_self c rest)
    unfold linesOf
    rw [if_neg hc, ih (fun hm => h (List.mem_cons_of_mem c hm))]

/-- `linesOf ('\n' :: ys)` opens with an empty line. -/
lemma linesOf_cons_newline (ys : List Char) : linesOf ('\n' :: ys) = [] :: linesOf ys := by
  simp [linesOf]

/-- Splitting off the first line before an explicit newline. -/
lemma linesOf_newline_append :
    ∀ xs ys : List Char, ('\n' : Char) ∉ xs →
      linesOf (xs ++ '\n' :: ys) = xs :: linesOf ys := by
  intro xs
  induction xs with
  | nil => intro ys _; exact linesOf_cons_newline ys
  | cons c rest ih =>
    intro ys h
    have hc : ¬(c = '\n') := fun e => h (e ▸ List.mem_cons_self c rest)
    have hrec := ih ys (fun hm => h (List.mem_cons_of_mem c hm))
    show linesOf (c :: (rest ++ '\n' :: ys)) = (c :: rest) :: linesOf ys
    simp only [linesOf, if_neg hc, hrec]

/-- C6: for every tunnel name, credentials path, hostname and service
URL (none containing a newline), the routing config text written by
`create_tunnel` parses back into an ingress list whose first rule maps
exactly that hostname to that service URL and whose final rule is the
catch-all `http_status:404` rule, in that order and with nothing after
the catch-all. -/
theorem c6_config_ingress_order (n c d s : String)
    (hn : ('\n' : Char) ∉ n.data) (hc : ('\n' : Char) ∉ c.data)
    (hd : ('\n' : Char) ∉ d.data) (hs : ('\n' : Char) ∉ s.data) :
    parseIngress (linesOf (config_content n c d s).data) =
      [⟨some d.data, s.data⟩, ⟨none, "http_status:404".data⟩] := by
  have e1 : "\ntunnel: ".data = '\n' :: "tunnel: ".data := rfl
  have e2 : "\ncredentials-file: ".data = '\n' :: "credentials-file: ".data := rfl
  have e3 : "\ningress:\n  - hostname: ".data =
      '\n' :: ("ingress:".data ++ '\n' :: "  - hostname: ".data) := rfl
  have e4 : "\n    service: ".data = '\n' :: "    service: ".data := rfl
  have e5 : "\n  - service: http_status:404\n".data =
      '\n' :: ("  - service: http_status:404".data ++ ['\n']) := rfl
  have hchars : (config_content n c d s).data =
      '\n' :: (("tunnel: ".data ++ n.data) ++ '\n' ::
        (("credentials-file: ".data ++ c.data) ++ '\n' ::
          ("ingress:".data ++ '\n' ::
            (("  - hostname: ".data ++ d.data) ++ '\n' ::
              (("    service: ".data ++ s.data) ++ '\n' ::
                ("  - service: http_status:404".data ++ ['\n'])))))) := by
    simp only [config_content, String.data_append, e1, e2, e3, e4, e5,
      List.cons_append, List.append_assoc, List.nil_append]
  have hA : ('\n' : Char) ∉ "tunnel: ".data ++ n.data := by
    intro hm
    rcases List.mem_append.mp hm with h1 | h1
    · revert h1; decide
    · exact hn h1
  have hB : ('\n' : Char) ∉ "credentials-file: ".data ++ c.data := by
    intro hm
    rcases List.mem_append.mp hm with h1 | h1
    · revert h1; decide
    · exact hc h1
  have hC : ('\n' : Char) ∉ "ingress:".data := by decide
  have hD : ('\n' : Char) ∉ "  - hostname: ".data ++ d.data := by
    intro hm
    rcases List.mem_append.mp hm with h1 | h1
    · revert h1; decide
    · exact hd h1
  have hE : ('\n' : Char) ∉ "    service: ".data ++ s.data := by
    intro hm
    rcases List.mem_append.mp hm with h1 | h1
    · revert h1; decide
    · exact hs h1
  have hF : ('\n' : Char) ∉ "  - service: http_status:404".data := by decide
  rw [hchars, linesOf_cons_newline, linesOf_newline_append _ _ hA,
    linesOf_newline_append _ _ hB, linesOf_newline_append _ _ hC,
    linesOf_newline_append _ _ hD, linesOf_newline_append _ _ hE,
    linesOf_newline_append _ _ hF]
  have q1 : "  - hostname: ".data.isPrefixOf ([] : List Char) = false := by decide
  have q2 : "  - service: ".data.isPrefixOf ([] : List Char) = false := by decide
  have q3 : "  - hostname: ".data.isPrefixOf ("tunnel: ".data ++ n.data) = false :=
    isPrefixOf_append_false _ _ _ (by decide)
  have q4 : "  - service: ".data.isPrefixOf ("tunnel: ".data ++ n.data) = false :=
    isPrefixOf_append_false _ _ _ (by decide)
  have q5 : "  - hostname: ".data.isPrefixOf ("credentials-file: ".data ++ c.data) = false :=
    isPrefixOf_append_false _ _ _ (by decide)
  have q6 : "  - service: ".data.isPrefixOf ("credentials-file: ".data ++ c.data) = false :=
    isPrefixOf_append_false _ _ _ (by decide)
  have q7 : "  - hostname: ".data.isPrefixOf "ingress:".data = false := by decide
  have q8 : "  - service: ".data.isPrefixOf "ingress:".data = false := by decide
  have q9 : "  - hostname: ".data.isPrefixOf ("  - hostname: ".data ++ d.data) = true :=
    isPrefixOf_append_self _ _
  have q10 : "    service: ".data.isPrefixOf ("    service: ".data ++ s.data) = true :=
    isPrefixOf_append_self _ _
  have q11 : "  - hostname: ".data.isPrefixOf "  - service: http_status:404".data = false := by
    decide
  have q12 : "  - service: ".data.isPrefixOf "  - service: http_status:404".data = true := by
    decide
  have r1 : ∀ t : List Char,
      List.drop "  - hostname: ".length
        (' ' :: ' ' :: '-' :: ' ' :: 'h' :: 'o' :: 's' :: 't' :: 'n' :: 'a' :: 'm' :: 'e' ::
          ':' :: ' ' :: t) = t := fun t => rfl
  have r2 : ∀ t : List Char,
      List.drop "    service: ".length
        (' ' :: ' ' :: ' ' :: ' ' :: 's' :: 'e' :: 'r' :: 'v' :: 'i' :: 'c' :: 'e' ::
          ':' :: ' ' :: t) = t := fun t => rfl
  simp [parseIngress, linesOf, q1, q2, q3, q4, q5, q6, q7, q8, q9, q10, q11, q12, r1, r2]
  rfl

/-- Witness for C6 at the spec's example hostname and service. -/
theorem c6_config_ingress_order_witness :
    (('\n' : Char) ∉ "app.example.com".data ∧
      ('\n' : Char) ∉ "http://localhost:8000".data) ∧
    parseIngress (linesOf (config_content "demo" "/home/op/.cloudflared/0192.json"
        "app.example.com" "http://localhost:8000").data) =
      [⟨some "app.example.com".data, "http://localhost:8000".data⟩,
       ⟨none, "http_status:404".data⟩] :=
  ⟨⟨by decide, by decide⟩,
   c6_config_ingress_order "demo" "/home/op/.cloudflared/0192.json" "app.example.com"
     "http://localhost:8000" (by decide) (by decide) (by decide) (by decide)⟩

end TunnelManager
